import Mathlib

/-!
Formal verification of the SlabFW formwork design tool (`app.py`).

The source computes AS 3610.2 load combinations across three construction
stages, reduces them to a governing vertical design load, and validates a
formwork system (PERI Skydeck / Gridflex / Alphadeck) against that load.
Real arithmetic is embedded with `ℚ`; Python's `max` over a nonempty
sequence is embedded as `pyMax`; the validator's error dictionary is
embedded as `Except DesignError DesignResult`.
-/

namespace SlabFW

/-- The `FormworkSystem` enum of `app.py`. -/
inductive FormworkSystem
| PERI_SKYDECK
| GRIDFLEX
| ALPHADECK
deriving DecidableEq, Repr

/-- The `SkydeckSupportType` enum of `app.py`. -/
inductive SkydeckSupportType
| NO_SUPPORT
| BEAM_SUPPORT
| PANEL_SUPPORT
| BOTH_SUPPORT
deriving DecidableEq, Repr

/-- Construction stages; the source keys them by the strings `"1"`, `"2"`,
`"3"` (before / during / after concrete placement). -/
inductive Stage
| BEFORE_PLACEMENT
| DURING_PLACEMENT
| AFTER_PLACEMENT
deriving DecidableEq, Repr

/-- Enumeration order of the stages, as iterated by `main` ("1","2","3"). -/
def stage_list : List Stage :=
  [Stage.BEFORE_PLACEMENT, Stage.DURING_PLACEMENT, Stage.AFTER_PLACEMENT]

/-- Position of a stage in enumeration order. -/
def stage_index : Stage → ℕ
  | Stage.BEFORE_PLACEMENT => 0
  | Stage.DURING_PLACEMENT => 1
  | Stage.AFTER_PLACEMENT => 2

/-- Python's built-in `max` over a list, `0` on the empty list (the source
only ever applies it to nonempty sequences). -/
def pyMax : List ℚ → ℚ
  | [] => 0
  | x :: xs => xs.foldl max x

theorem init_le_foldl_max (xs : List ℚ) : ∀ a : ℚ, a ≤ xs.foldl max a := by
  induction xs with
  | nil => intro a; simp
  | cons y ys ih =>
    intro a
    exact le_trans (le_max_left a y) (ih (max a y))

theorem mem_le_foldl_max (xs : List ℚ) : ∀ (a x : ℚ), x ∈ xs → x ≤ xs.foldl max a := by
  induction xs with
  | nil => intro a x hx; cases hx
  | cons y ys ih =>
    intro a x hx
    rcases List.mem_cons.mp hx with h | h
    · subst h
      exact le_trans (le_max_right a x) (init_le_foldl_max ys (max a x))
    · exact ih (max a y) x h

theorem foldl_max_eq_or_mem (xs : List ℚ) : ∀ a : ℚ, xs.foldl max a = a ∨ xs.foldl max a ∈ xs := by
  induction xs with
  | nil => intro a; left; rfl
  | cons y ys ih =>
    intro a
    rcases ih (max a y) with h | h
    · rw [List.foldl_cons, h]
      rcases max_choice a y with h' | h'
      · left; exact h'
      · right; rw [h']; exact List.mem_cons_self y ys
    · right
      exact List.mem_cons_of_mem y h

theorem le_pyMax_of_mem (l : List ℚ) (x : ℚ) (h : x ∈ l) : x ≤ pyMax l := by
  cases l with
  | nil => cases h
  | cons y ys =>
    rcases List.mem_cons.mp h with h' | h'
    · subst h'; exact init_le_foldl_max ys x
    · exact mem_le_foldl_max ys y x h'

theorem pyMax_mem (l : List ℚ) (h : l ≠ []) : pyMax l ∈ l := by
  cases l with
  | nil => exact absurd rfl h
  | cons y ys =>
    rcases foldl_max_eq_or_mem ys y with h' | h'
    · rw [pyMax, h']; exact List.mem_cons_self y ys
    · exact List.mem_cons_of_mem y h'

/-- Concrete unit weight used by `calculate_concrete_load` (the local
`base_density = 24  # kN/m³` of `app.py`, line 73). -/
def base_density : ℚ := 24

/-- Source `calculate_concrete_load(thickness, reinforcement_percentage)`:
`G_c = base_density * thickness + (0.5 * reinforcement_percentage) * thickness`. -/
def calculate_concrete_load (thickness reinforcement_percentage : ℚ) : ℚ :=
  let reinforcement_load := 0.5 * reinforcement_percentage
  base_density * thickness + reinforcement_load * thickness

/-- Source `compute_combinations(G_f, G_c, Q_w, Q_m, Q_h, W_s, W_u, F_w, Q_x, P_c, I, stage, gamma_d)`:
the per-stage factored load combinations, each a (vertical, horizontal) pair. -/
def compute_combinations (G_f G_c Q_w Q_m Q_h W_s W_u F_w Q_x P_c I : ℚ)
    (stage : Stage) (gamma_d : ℚ) : List (ℚ × ℚ) :=
  match stage with
  | Stage.BEFORE_PLACEMENT =>
    [(1.35 * G_f, 0.0),
     (gamma_d * (1.2 * G_f + 1.5 * Q_w + 1.5 * Q_m + 1.0 * W_s), gamma_d * (1.5 * Q_h)),
     (1.2 * G_f + 1.0 * W_u + 1.5 * F_w, 0.0),
     (0.9 * G_f + 1.0 * W_u + 1.5 * F_w, 0.0),
     (1.0 * G_f + 1.1 * I, 0.0)]
  | Stage.DURING_PLACEMENT =>
    [(gamma_d * (1.35 * G_f + 1.35 * G_c), 0.0),
     (gamma_d * (1.2 * G_f + 1.2 * G_c + 1.5 * Q_w + 1.5 * Q_m + 1.0 * W_s + 1.5 * F_w
        + 1.5 * Q_x + 1.0 * P_c),
      gamma_d * (1.5 * Q_h)),
     (1.0 * G_f + 1.0 * G_c + 1.1 * I, 0.0)]
  | Stage.AFTER_PLACEMENT =>
    [(gamma_d * (1.35 * G_f + 1.35 * G_c), 0.0),
     (gamma_d * (1.2 * G_f + 1.2 * G_c + 1.5 * Q_w + 1.5 * Q_m + 1.0 * W_s + 1.5 * F_w
        + 1.5 * Q_x + 1.0 * P_c),
      gamma_d * (1.5 * Q_h)),
     (1.2 * G_f + 1.2 * G_c + 1.0 * W_u, 0.0),
     (1.0 * G_f + 1.0 * G_c + 1.1 * I, 0.0)]

/-- The numeric inputs gathered by `main`'s sidebar (the `inputs` dict):
`G_c` is derived, not stored here. -/
structure LoadInputs where
  G_f : ℚ
  thickness : ℚ
  reinforcement_percentage : ℚ
  Q_w1 : ℚ
  Q_w2 : ℚ
  Q_w3 : ℚ
  Q_m : ℚ
  Q_h : ℚ
  W_s : ℚ
  W_u : ℚ
  F_w : ℚ
  Q_x : ℚ
  P_c : ℚ
  I : ℚ
deriving DecidableEq, Repr

/-- Source `inputs['G_c'] = calculate_concrete_load(thickness, reinforcement_percentage)`. -/
def input_G_c (inp : LoadInputs) : ℚ :=
  calculate_concrete_load inp.thickness inp.reinforcement_percentage

/-- The per-stage workers-and-equipment load wired up by `main`
(`stages = {"1": Q_w1, "2": Q_w2, "3": Q_w3}`). -/
def stage_Q_w (inp : LoadInputs) : Stage → ℚ
  | Stage.BEFORE_PLACEMENT => inp.Q_w1
  | Stage.DURING_PLACEMENT => inp.Q_w2
  | Stage.AFTER_PLACEMENT => inp.Q_w3

/-- Critical-member combinations of a stage, as `main` computes them
(`gamma_d = 1.3`). -/
def critical_combinations (inp : LoadInputs) (stage : Stage) : List (ℚ × ℚ) :=
  compute_combinations inp.G_f (input_G_c inp) (stage_Q_w inp stage) inp.Q_m inp.Q_h
    inp.W_s inp.W_u inp.F_w inp.Q_x inp.P_c inp.I stage 1.3

/-- Non-critical-member combinations of a stage, as `main` computes them
(`gamma_d = 1.0`). -/
def non_critical_combinations (inp : LoadInputs) (stage : Stage) : List (ℚ × ℚ) :=
  compute_combinations inp.G_f (input_G_c inp) (stage_Q_w inp stage) inp.Q_m inp.Q_h
    inp.W_s inp.W_u inp.F_w inp.Q_x inp.P_c inp.I stage 1.0

/-- The governing design load of `main`:
`max(max(comb[0] for comb in stage_data['critical']) for stage_data in results.values())`. -/
def max_vertical_load (inp : LoadInputs) : ℚ :=
  pyMax (stage_list.map fun st => pyMax ((critical_combinations inp st).map Prod.fst))

/-- All inputs of the load calculator are non-negative. -/
def NonnegInputs (inp : LoadInputs) : Prop :=
  0 ≤ inp.G_f ∧ 0 ≤ inp.thickness ∧ 0 ≤ inp.reinforcement_percentage ∧
  0 ≤ inp.Q_w1 ∧ 0 ≤ inp.Q_w2 ∧ 0 ≤ inp.Q_w3 ∧ 0 ≤ inp.Q_m ∧ 0 ≤ inp.Q_h ∧
  0 ≤ inp.W_s ∧ 0 ≤ inp.W_u ∧ 0 ≤ inp.F_w ∧ 0 ≤ inp.Q_x ∧ 0 ≤ inp.P_c ∧ 0 ≤ inp.I

instance (inp : LoadInputs) : Decidable (NonnegInputs inp) := by
  unfold NonnegInputs
  infer_instance

/-- Source `SYSTEM_SPECS[PERI_SKYDECK]['max_span']`, keyed by support type. -/
def skydeck_max_span : SkydeckSupportType → ℚ
  | SkydeckSupportType.NO_SUPPORT => 4.5
  | SkydeckSupportType.BEAM_SUPPORT => 6.0
  | SkydeckSupportType.PANEL_SUPPORT => 6.0
  | SkydeckSupportType.BOTH_SUPPORT => 6.0

/-- Source `SYSTEM_SPECS[PERI_SKYDECK]['concrete_capacity']`, keyed by support type. -/
def skydeck_concrete_capacity : SkydeckSupportType → ℚ
  | SkydeckSupportType.NO_SUPPORT => 0.43
  | SkydeckSupportType.BEAM_SUPPORT => 0.52
  | SkydeckSupportType.PANEL_SUPPORT => 0.90
  | SkydeckSupportType.BOTH_SUPPORT => 1.09

/-- The support types in the dictionary's insertion order. -/
def support_type_list : List SkydeckSupportType :=
  [SkydeckSupportType.NO_SUPPORT, SkydeckSupportType.BEAM_SUPPORT,
   SkydeckSupportType.PANEL_SUPPORT, SkydeckSupportType.BOTH_SUPPORT]

/-- Source `SYSTEM_SPECS[...]['min_span']`. -/
def min_span : FormworkSystem → ℚ
  | FormworkSystem.PERI_SKYDECK => 1.0
  | FormworkSystem.GRIDFLEX => 0.6
  | FormworkSystem.ALPHADECK => 1.2

/-- Source `SYSTEM_SPECS[...]['ultimate_capacity']` (kPa). -/
def ultimate_capacity : FormworkSystem → ℚ
  | FormworkSystem.PERI_SKYDECK => 15.0
  | FormworkSystem.GRIDFLEX => 12.0
  | FormworkSystem.ALPHADECK => 18.0

/-- Source `SYSTEM_SPECS[...]['standard_spacings']`. -/
def standard_spacings : FormworkSystem → List ℚ
  | FormworkSystem.PERI_SKYDECK => [0.9, 1.2, 1.5]
  | FormworkSystem.GRIDFLEX => [0.6, 0.9, 1.2]
  | FormworkSystem.ALPHADECK => [1.0, 1.2, 1.5, 1.8]

/-- Source `SYSTEM_SPECS[...]['decking_weight']`. -/
def decking_weight : FormworkSystem → ℚ
  | FormworkSystem.PERI_SKYDECK => 0.15
  | FormworkSystem.GRIDFLEX => 0.12
  | FormworkSystem.ALPHADECK => 0.18

/-- Source `SYSTEM_SPECS[...]['joist_weight']`. -/
def joist_weight : FormworkSystem → ℚ
  | FormworkSystem.PERI_SKYDECK => 0.1
  | FormworkSystem.GRIDFLEX => 0.08
  | FormworkSystem.ALPHADECK => 0.12

/-- The `N` of `SYSTEM_SPECS[...]['max_deflection'] = 'span/N'`, as parsed by
`int(specs['max_deflection'].split('/')[1])`. -/
def deflection_denominator : FormworkSystem → ℚ
  | FormworkSystem.PERI_SKYDECK => 270
  | FormworkSystem.GRIDFLEX => 250
  | FormworkSystem.ALPHADECK => 300

/-- Insertion into a descending-sorted list (used to embed Python's
`sorted(..., reverse=True)`). -/
def insert_desc (x : ℚ) : List ℚ → List ℚ
  | [] => [x]
  | y :: ys => if y ≤ x then x :: y :: ys else y :: insert_desc x ys

/-- Python `sorted(l, reverse=True)`. -/
def sorted_desc : List ℚ → List ℚ
  | [] => []
  | x :: xs => insert_desc x (sorted_desc xs)

/-- The spacing-selection loop of `design_formwork_system`:
iterate the standard spacings in descending order and `break` on the first
one with `max_vertical_load <= ultimate_capacity * 0.9` (the condition does
not mention the loop variable). `none` embeds the Python `None`. -/
def recommended_spacing (spacings : List ℚ) (max_vertical_load cap : ℚ) : Option ℚ :=
  (sorted_desc spacings).find? fun _ => decide (max_vertical_load ≤ cap * 0.9)

/-- Validator error outcomes, one per `return {'error': ...}` site of
`design_formwork_system`. -/
inductive DesignError
| ConcreteThicknessExceeded
| SpanOutOfRange
| CapacityExceeded
| NoAdmissibleSpacing
deriving DecidableEq, Repr

/-- The numeric and support fields of the success dictionary returned by
`design_formwork_system` (constant string echo fields such as
`capacity_check`, `material` and `notes` are presentation and are omitted). -/
structure DesignResult where
  span : ℚ
  width : ℚ
  joist_spacing : ℚ
  num_joists : ℤ
  self_weight : ℚ
  max_deflection : ℚ
  max_allowed_deflection : ℚ
  support_type : Option SkydeckSupportType
  max_concrete_thickness : Option ℚ
deriving DecidableEq, Repr

/-- Truth value of the guarded concrete-thickness check
`if system_type == PERI_SKYDECK and skydeck_support:` followed by
`if concrete_thickness and concrete_thickness > concrete_capacity:`
(Python truthiness: `None`, a missing support, and a thickness of `0` all
skip the check). -/
def thickness_check_fails :
    FormworkSystem → Option SkydeckSupportType → Option ℚ → Bool
  | FormworkSystem.PERI_SKYDECK, some sup, some t =>
      decide (t ≠ 0) && decide (skydeck_concrete_capacity sup < t)
  | _, _, _ => false

/-- The span bound used by the validator: support-specific for PERI Skydeck
with a support selected, else `specs['max_span']` when it is a flat float and
`max(specs['max_span'].values())` when it is the Skydeck dictionary. -/
def resolved_max_span : FormworkSystem → Option SkydeckSupportType → ℚ
  | FormworkSystem.PERI_SKYDECK, some sup => skydeck_max_span sup
  | FormworkSystem.PERI_SKYDECK, none => pyMax (support_type_list.map skydeck_max_span)
  | FormworkSystem.GRIDFLEX, _ => 3.6
  | FormworkSystem.ALPHADECK, _ => 5.0

/-- Source `design_formwork_system(system_type, span, width, max_vertical_load,
max_horizontal_load, skydeck_support, concrete_thickness)`; the unused
`max_horizontal_load` argument is dropped. -/
def design_formwork_system (system_type : FormworkSystem) (span width mvl : ℚ)
    (skydeck_support : Option SkydeckSupportType) (concrete_thickness : Option ℚ) :
    Except DesignError DesignResult :=
  if thickness_check_fails system_type skydeck_support concrete_thickness then
    Except.error DesignError.ConcreteThicknessExceeded
  else if span < min_span system_type ∨ resolved_max_span system_type skydeck_support < span then
    Except.error DesignError.SpanOutOfRange
  else if ultimate_capacity system_type < mvl then
    Except.error DesignError.CapacityExceeded
  else
    match recommended_spacing (standard_spacings system_type) mvl
        (ultimate_capacity system_type) with
    | none => Except.error DesignError.NoAdmissibleSpacing
    | some s =>
      if s = 0 then Except.error DesignError.NoAdmissibleSpacing
      else
        let num_joists : ℤ := ⌈width / s⌉ + 1
        let actual_spacing : ℚ := width / ((num_joists - 1 : ℤ) : ℚ)
        let total_self_weight : ℚ :=
          decking_weight system_type + joist_weight system_type / actual_spacing
        let max_allowed_deflection : ℚ := span / deflection_denominator system_type
        let estimated_deflection : ℚ := min (span / 400) (max_allowed_deflection * 0.8)
        Except.ok
          { span := span
            width := width
            joist_spacing := actual_spacing
            num_joists := num_joists
            self_weight := total_self_weight
            max_deflection := estimated_deflection
            max_allowed_deflection := max_allowed_deflection
            support_type :=
              match system_type, skydeck_support with
              | FormworkSystem.PERI_SKYDECK, some sup => some sup
              | _, _ => none
            max_concrete_thickness :=
              match system_type, skydeck_support with
              | FormworkSystem.PERI_SKYDECK, some sup => some (skydeck_concrete_capacity sup)
              | _, _ => none }

/-- The combination count of each stage, as documented (extended formulation:
5 combinations before placement, 3 during, 4 after). -/
def documented_combination_count : Stage → ℕ
  | Stage.BEFORE_PLACEMENT => 5
  | Stage.DURING_PLACEMENT => 3
  | Stage.AFTER_PLACEMENT => 4

/-- C5: `calculate_concrete_load` returns exactly `ρ·t + 0.5·r·t` with the
configured unit weight `base_density` (24 kN/m³ in this revision); in
particular `calculate_concrete_load(0.2, 1.0) = base_density·0.2 + 0.5·1.0·0.2
= 4.9`. -/
theorem calculate_concrete_load_formula :
    (∀ t r : ℚ, calculate_concrete_load t r = base_density * t + 0.5 * r * t) ∧
    calculate_concrete_load 0.2 1.0 = base_density * 0.2 + 0.5 * 1.0 * 0.2 ∧
    calculate_concrete_load 0.2 1.0 = 4.9 := by
  refine ⟨fun t r => ?_, ?_, ?_⟩
  · simp only [calculate_concrete_load]
  · simp only [calculate_concrete_load]
  · simp only [calculate_concrete_load, base_density]
    norm_num

/-- C7: stage BEFORE_PLACEMENT's first combination is exactly
`(1.35·G_f, 0)` for every `gamma_d`, hence invariant as `gamma_d` varies;
the amplification factor is never applied to it. -/
theorem before_placement_comb_A_unamplified
    (G_f G_c Q_w Q_m Q_h W_s W_u F_w Q_x P_c I gamma_d gamma_d' : ℚ) :
    (compute_combinations G_f G_c Q_w Q_m Q_h W_s W_u F_w Q_x P_c I
        Stage.BEFORE_PLACEMENT gamma_d).head? = some (1.35 * G_f, 0.0) ∧
    (compute_combinations G_f G_c Q_w Q_m Q_h W_s W_u F_w Q_x P_c I
        Stage.BEFORE_PLACEMENT gamma_d).head? =
      (compute_combinations G_f G_c Q_w Q_m Q_h W_s W_u F_w Q_x P_c I
        Stage.BEFORE_PLACEMENT gamma_d').head? :=
  ⟨rfl, rfl⟩

/-- C4: for every stage and all non-negative inputs (including `gamma_d`),
`compute_combinations` returns exactly the documented number of combinations
— also when every imposed load is zero — and every combination's vertical
component is non-negative. -/
theorem compute_combinations_count_nonneg
    (G_f G_c Q_w Q_m Q_h W_s W_u F_w Q_x P_c I gamma_d : ℚ) (stage : Stage)
    (hGf : 0 ≤ G_f) (hGc : 0 ≤ G_c) (hQw : 0 ≤ Q_w) (hQm : 0 ≤ Q_m) (hQh : 0 ≤ Q_h)
    (hWs : 0 ≤ W_s) (hWu : 0 ≤ W_u) (hFw : 0 ≤ F_w) (hQx : 0 ≤ Q_x) (hPc : 0 ≤ P_c)
    (hI : 0 ≤ I) (hg : 0 ≤ gamma_d) :
    (compute_combinations G_f G_c Q_w Q_m Q_h W_s W_u F_w Q_x P_c I stage gamma_d).length =
      documented_combination_count stage ∧
    ∀ p ∈ compute_combinations G_f G_c Q_w Q_m Q_h W_s W_u F_w Q_x P_c I stage gamma_d,
      0 ≤ p.1 := by
  cases stage with
  | BEFORE_PLACEMENT =>
    refine ⟨rfl, ?_⟩
    intro p hp
    simp only [compute_combinations, List.mem_cons, List.not_mem_nil, or_false] at hp
    have hX : (0:ℚ) ≤ 1.2 * G_f + 1.5 * Q_w + 1.5 * Q_m + 1.0 * W_s := by linarith
    rcases hp with rfl | rfl | rfl | rfl | rfl <;> dsimp only
    · linarith
    · have := mul_nonneg hg hX
      linarith
    · linarith
    · linarith
    · linarith
  | DURING_PLACEMENT =>
    refine ⟨rfl, ?_⟩
    intro p hp
    simp only [compute_combinations, List.mem_cons, List.not_mem_nil, or_false] at hp
    have hX1 : (0:ℚ) ≤ 1.35 * G_f + 1.35 * G_c := by linarith
    have hX2 : (0:ℚ) ≤ 1.2 * G_f + 1.2 * G_c + 1.5 * Q_w + 1.5 * Q_m + 1.0 * W_s
        + 1.5 * F_w + 1.5 * Q_x + 1.0 * P_c := by linarith
    rcases hp with rfl | rfl | rfl <;> dsimp only
    · have := mul_nonneg hg hX1
      linarith
    · have := mul_nonneg hg hX2
      linarith
    · linarith
  | AFTER_PLACEMENT =>
    refine ⟨rfl, ?_⟩
    intro p hp
    simp only [compute_combinations, List.mem_cons, List.not_mem_nil, or_false] at hp
    have hX1 : (0:ℚ) ≤ 1.35 * G_f + 1.35 * G_c := by linarith
    have hX2 : (0:ℚ) ≤ 1.2 * G_f + 1.2 * G_c + 1.5 * Q_w + 1.5 * Q_m + 1.0 * W_s
        + 1.5 * F_w + 1.5 * Q_x + 1.0 * P_c := by linarith
    rcases hp with rfl | rfl | rfl | rfl <;> dsimp only
    · have := mul_nonneg hg hX1
      linarith
    · have := mul_nonneg hg hX2
      linarith
    · linarith
    · linarith

/-- Witness for C4: the all-zero input vector still produces all five
BEFORE_PLACEMENT combinations, with non-negative vertical components. -/
theorem compute_combinations_count_nonneg_witness :
    (compute_combinations 0 0 0 0 0 0 0 0 0 0 0 Stage.BEFORE_PLACEMENT 1.3).length =
      documented_combination_count Stage.BEFORE_PLACEMENT ∧
    ∀ p ∈ compute_combinations 0 0 0 0 0 0 0 0 0 0 0 Stage.BEFORE_PLACEMENT 1.3,
      0 ≤ p.1 :=
  compute_combinations_count_nonneg 0 0 0 0 0 0 0 0 0 0 0 1.3 Stage.BEFORE_PLACEMENT
    le_rfl le_rfl le_rfl le_rfl le_rfl le_rfl le_rfl le_rfl le_rfl le_rfl le_rfl
    (by norm_num)

theorem max_vertical_load_def (inp : LoadInputs) :
    max_vertical_load inp =
      pyMax (stage_list.map fun st => pyMax ((critical_combinations inp st).map Prod.fst)) :=
  rfl

theorem crit_vertical_le_max (inp : LoadInputs) (st : Stage) (p : ℚ × ℚ)
    (hp : p ∈ critical_combinations inp st) : p.1 ≤ max_vertical_load inp := by
  have h1 : p.1 ≤ pyMax ((critical_combinations inp st).map Prod.fst) :=
    le_pyMax_of_mem _ _ (List.mem_map_of_mem Prod.fst hp)
  have hst : st ∈ stage_list := by
    cases st <;> simp [stage_list]
  have h2 : pyMax ((critical_combinations inp st).map Prod.fst) ∈
      stage_list.map fun s => pyMax ((critical_combinations inp s).map Prod.fst) :=
    List.mem_map_of_mem _ hst
  rw [max_vertical_load_def]
  exact le_trans h1 (le_pyMax_of_mem _ _ h2)

theorem input_G_c_nonneg (inp : LoadInputs) (ht : 0 ≤ inp.thickness)
    (hr : 0 ≤ inp.reinforcement_percentage) : 0 ≤ input_G_c inp := by
  unfold input_G_c calculate_concrete_load base_density
  nlinarith [mul_nonneg hr ht]

theorem noncrit_le_some_crit (inp : LoadInputs) (h : NonnegInputs inp) (st : Stage)
    (p : ℚ × ℚ) (hp : p ∈ non_critical_combinations inp st) :
    ∃ q ∈ critical_combinations inp st, p.1 ≤ q.1 := by
  obtain ⟨hGf, ht, hr, hw1, hw2, hw3, hQm, hQh, hWs, hWu, hFw, hQx, hPc, hI⟩ := h
  have hGc : 0 ≤ input_G_c inp := input_G_c_nonneg inp ht hr
  cases st with
  | BEFORE_PLACEMENT =>
    simp only [non_critical_combinations, compute_combinations, stage_Q_w, List.mem_cons,
      List.not_mem_nil, or_false] at hp
    rcases hp with rfl | rfl | rfl | rfl | rfl
    · refine ⟨(1.35 * inp.G_f, 0.0), ?_, le_rfl⟩
      simp [critical_combinations, compute_combinations, stage_Q_w]
    · refine ⟨(1.3 * (1.2 * inp.G_f + 1.5 * inp.Q_w1 + 1.5 * inp.Q_m + 1.0 * inp.W_s),
        1.3 * (1.5 * inp.Q_h)), ?_, ?_⟩
      · simp [critical_combinations, compute_combinations, stage_Q_w]
      · dsimp only
        have hX : (0:ℚ) ≤ 1.2 * inp.G_f + 1.5 * inp.Q_w1 + 1.5 * inp.Q_m + 1.0 * inp.W_s := by
          linarith
        linarith
    · refine ⟨(1.2 * inp.G_f + 1.0 * inp.W_u + 1.5 * inp.F_w, 0.0), ?_, le_rfl⟩
      simp [critical_combinations, compute_combinations, stage_Q_w]
    · refine ⟨(0.9 * inp.G_f + 1.0 * inp.W_u + 1.5 * inp.F_w, 0.0), ?_, le_rfl⟩
      simp [critical_combinations, compute_combinations, stage_Q_w]
    · refine ⟨(1.0 * inp.G_f + 1.1 * inp.I, 0.0), ?_, le_rfl⟩
      simp [critical_combinations, compute_combinations, stage_Q_w]
  | DURING_PLACEMENT =>
    simp only [non_critical_combinations, compute_combinations, stage_Q_w, List.mem_cons,
      List.not_mem_nil, or_false] at hp
    rcases hp with rfl | rfl | rfl
    · refine ⟨(1.3 * (1.35 * inp.G_f + 1.35 * input_G_c inp), 0.0), ?_, ?_⟩
      · simp [critical_combinations, compute_combinations, stage_Q_w]
      · dsimp only
        have hX : (0:ℚ) ≤ 1.35 * inp.G_f + 1.35 * input_G_c inp := by linarith
        linarith
    · refine ⟨(1.3 * (1.2 * inp.G_f + 1.2 * input_G_c inp + 1.5 * inp.Q_w2 + 1.5 * inp.Q_m
          + 1.0 * inp.W_s + 1.5 * inp.F_w + 1.5 * inp.Q_x + 1.0 * inp.P_c),
        1.3 * (1.5 * inp.Q_h)), ?_, ?_⟩
      · simp [critical_combinations, compute_combinations, stage_Q_w]
      · dsimp only
        have hX : (0:ℚ) ≤ 1.2 * inp.G_f + 1.2 * input_G_c inp + 1.5 * inp.Q_w2 + 1.5 * inp.Q_m
            + 1.0 * inp.W_s + 1.5 * inp.F_w + 1.5 * inp.Q_x + 1.0 * inp.P_c := by linarith
        linarith
    · refine ⟨(1.0 * inp.G_f + 1.0 * input_G_c inp + 1.1 * inp.I, 0.0), ?_, le_rfl⟩
      simp [critical_combinations, compute_combinations, stage_Q_w]
  | AFTER_PLACEMENT =>
    simp only [non_critical_combinations, compute_combinations, stage_Q_w, List.mem_cons,
      List.not_mem_nil, or_false] at hp
    rcases hp with rfl | rfl | rfl | rfl
    · refine ⟨(1.3 * (1.35 * inp.G_f + 1.35 * input_G_c inp), 0.0), ?_, ?_⟩
      · simp [critical_combinations, compute_combinations, stage_Q_w]
      · dsimp only
        have hX : (0:ℚ) ≤ 1.35 * inp.G_f + 1.35 * input_G_c inp := by linarith
        linarith
    · refine ⟨(1.3 * (1.2 * inp.G_f + 1.2 * input_G_c inp + 1.5 * inp.Q_w3 + 1.5 * inp.Q_m
          + 1.0 * inp.W_s + 1.5 * inp.F_w + 1.5 * inp.Q_x + 1.0 * inp.P_c),
        1.3 * (1.5 * inp.Q_h)), ?_, ?_⟩
      · simp [critical_combinations, compute_combinations, stage_Q_w]
      · dsimp only
        have hX : (0:ℚ) ≤ 1.2 * inp.G_f + 1.2 * input_G_c inp + 1.5 * inp.Q_w3 + 1.5 * inp.Q_m
            + 1.0 * inp.W_s + 1.5 * inp.F_w + 1.5 * inp.Q_x + 1.0 * inp.P_c := by linarith
        linarith
    · refine ⟨(1.2 * inp.G_f + 1.2 * input_G_c inp + 1.0 * inp.W_u, 0.0), ?_, le_rfl⟩
      simp [critical_combinations, compute_combinations, stage_Q_w]
    · refine ⟨(1.0 * inp.G_f + 1.0 * input_G_c inp + 1.1 * inp.I, 0.0), ?_, le_rfl⟩
      simp [critical_combinations, compute_combinations, stage_Q_w]

/-- C1: the governing design load is attained by a CRITICAL-class
combination of some stage, and for every non-negative input vector it
dominates the vertical component of every combination of every stage and
of both member classes (`gamma_d = 1.3` and `gamma_d = 1.0`). -/
theorem governing_load_max_critical (inp : LoadInputs) (h : NonnegInputs inp) :
    (∃ st : Stage, ∃ p ∈ critical_combinations inp st, max_vertical_load inp = p.1) ∧
    ∀ st : Stage, ∀ p : ℚ × ℚ,
      p ∈ critical_combinations inp st ∨ p ∈ non_critical_combinations inp st →
      p.1 ≤ max_vertical_load inp := by
  constructor
  · have hne : (stage_list.map fun st =>
        pyMax ((critical_combinations inp st).map Prod.fst)) ≠ [] := by
      simp [stage_list]
    obtain ⟨st, hst, hEq⟩ := List.mem_map.mp (pyMax_mem _ hne)
    have hne2 : (critical_combinations inp st).map Prod.fst ≠ [] := by
      cases st <;> simp [critical_combinations, compute_combinations]
    obtain ⟨p, hp, hp2⟩ := List.mem_map.mp (pyMax_mem _ hne2)
    refine ⟨st, p, hp, ?_⟩
    rw [max_vertical_load_def, ← hEq, ← hp2]
  · intro st p hp
    rcases hp with hp | hp
    · exact crit_vertical_le_max inp st p hp
    · obtain ⟨q, hq, hpq⟩ := noncrit_le_some_crit inp h st p hp
      exact le_trans hpq (crit_vertical_le_max inp st q hq)

/-- Inputs used to witness the governing-load theorems on a concrete vector. -/
def sample_inputs : LoadInputs :=
  { G_f := 1, thickness := 1, reinforcement_percentage := 1,
    Q_w1 := 1, Q_w2 := 1, Q_w3 := 1, Q_m := 1, Q_h := 1,
    W_s := 1, W_u := 1, F_w := 1, Q_x := 1, P_c := 1, I := 1 }

theorem sample_inputs_nonneg : NonnegInputs sample_inputs := by
  refine ⟨?_, ?_, ?_, ?_, ?_, ?_, ?_, ?_, ?_, ?_, ?_, ?_, ?_, ?_⟩ <;> norm_num [sample_inputs]

/-- Witness for C1: at the all-ones input vector the governing load
dominates the unamplified BEFORE_PLACEMENT dead-load combination. -/
theorem governing_load_max_critical_witness :
    ((1.35 * (1:ℚ), (0.0:ℚ)).1 ≤ max_vertical_load sample_inputs) :=
  (governing_load_max_critical sample_inputs sample_inputs_nonneg).2
    Stage.BEFORE_PLACEMENT (1.35 * (1:ℚ), (0.0:ℚ))
    (Or.inl (by simp [critical_combinations, compute_combinations, stage_Q_w, sample_inputs]))

/-- Does an outcome carry the concrete-thickness error? -/
def is_thickness_error : Except DesignError DesignResult → Bool
  | Except.error DesignError.ConcreteThicknessExceeded => true
  | _ => false

/-- Does an outcome carry the span-out-of-range error? -/
def is_span_error : Except DesignError DesignResult → Bool
  | Except.error DesignError.SpanOutOfRange => true
  | _ => false

theorem recommended_spacing_none (spacings : List ℚ) (mvl cap : ℚ)
    (h : ¬ mvl ≤ cap * 0.9) : recommended_spacing spacings mvl cap = none := by
  simp [recommended_spacing, List.find?_eq_none, h]

theorem recommended_spacing_some_head (spacings : List ℚ) (mvl cap : ℚ)
    (h : mvl ≤ cap * 0.9) :
    recommended_spacing spacings mvl cap = (sorted_desc spacings).head? := by
  unfold recommended_spacing
  cases sorted_desc spacings with
  | nil => rfl
  | cons x xs => simp [List.find?_cons, h]

/-- C8: whenever the concrete-thickness precheck does not fire, the
validator returns the span error exactly when `span` lies strictly outside
the inclusive range `[min_span, max_span]`; in particular spans equal to
either bound pass the span check. -/
theorem span_check_inclusive (sys : FormworkSystem) (span width mvl : ℚ)
    (sup : Option SkydeckSupportType) (t : Option ℚ)
    (h : thickness_check_fails sys sup t = false) :
    design_formwork_system sys span width mvl sup t = Except.error DesignError.SpanOutOfRange ↔
      (span < min_span sys ∨ resolved_max_span sys sup < span) := by
  unfold design_formwork_system
  simp only [h, Bool.false_eq_true, if_false]
  by_cases hs : span < min_span sys ∨ resolved_max_span sys sup < span
  · simp [hs]
  · simp only [hs, if_false, iff_false]
    by_cases hc : ultimate_capacity sys < mvl
    · simp [hc]
    · simp only [hc, if_false]
      cases hrec : recommended_spacing (standard_spacings sys) mvl (ultimate_capacity sys) with
      | none => simp
      | some s =>
        by_cases hz : s = 0
        · simp [hz]
        · simp [hz]

/-- Witness for C8: Gridflex at span 5 m (above its 3.6 m maximum) fails
with the span error. -/
theorem span_check_inclusive_witness :
    design_formwork_system FormworkSystem.GRIDFLEX 5 1 1 none none =
      Except.error DesignError.SpanOutOfRange :=
  (span_check_inclusive FormworkSystem.GRIDFLEX 5 1 1 none none rfl).mpr
    (Or.inr (by norm_num [resolved_max_span]))

theorem no_thickness_error_of_check_false (sys : FormworkSystem) (span width mvl : ℚ)
    (sup : Option SkydeckSupportType) (t : Option ℚ)
    (h : thickness_check_fails sys sup t = false) :
    is_thickness_error (design_formwork_system sys span width mvl sup t) = false := by
  unfold design_formwork_system
  simp only [h, Bool.false_eq_true, if_false]
  by_cases hs : span < min_span sys ∨ resolved_max_span sys sup < span
  · simp [hs, is_thickness_error]
  · simp only [hs, if_false]
    by_cases hc : ultimate_capacity sys < mvl
    · simp [hc, is_thickness_error]
    · simp only [hc, if_false]
      cases hrec : recommended_spacing (standard_spacings sys) mvl (ultimate_capacity sys) with
      | none => simp [is_thickness_error]
      | some s =>
        by_cases hz : s = 0
        · simp [hz, is_thickness_error]
        · simp [hz, is_thickness_error]

/-- C9: with no support configuration the Skydeck span bound resolves to the
maximum (6 m) over the four support types and the concrete-thickness check
never fires; with a thickness of `None` or exactly `0` it never fires either,
so no thickness-capacity error can be returned in those cases. -/
theorem skydeck_thickness_check_skipped :
    (resolved_max_span FormworkSystem.PERI_SKYDECK none = 6 ∧
      ∀ sup : SkydeckSupportType, skydeck_max_span sup ≤ 6) ∧
    (∀ span width mvl : ℚ, ∀ t : Option ℚ,
      is_thickness_error
        (design_formwork_system FormworkSystem.PERI_SKYDECK span width mvl none t) = false) ∧
    (∀ sys : FormworkSystem, ∀ span width mvl : ℚ, ∀ sup : Option SkydeckSupportType,
      is_thickness_error (design_formwork_system sys span width mvl sup none) = false ∧
      is_thickness_error (design_formwork_system sys span width mvl sup (some 0)) = false) := by
  refine ⟨⟨?_, ?_⟩, ?_, ?_⟩
  · norm_num [resolved_max_span, support_type_list, skydeck_max_span, pyMax,
      List.foldl, max_def]
  · intro sup
    cases sup <;> norm_num [skydeck_max_span]
  · intro span width mvl t
    exact no_thickness_error_of_check_false _ _ _ _ _ _ (by cases t <;> rfl)
  · intro sys span width mvl sup
    constructor
    · exact no_thickness_error_of_check_false _ _ _ _ _ _
        (by cases sys <;> cases sup <;> rfl)
    · refine no_thickness_error_of_check_false _ _ _ _ _ _ ?_
      cases sys <;> cases sup <;> simp [thickness_check_fails]

/-- Counterexample to C3: PERI Skydeck without mid-support, span 10 m
(outside [1.0, 4.5]) and thickness 0.5 m (above the 0.43 m capacity): both
the span check and the thickness check fail, yet the validator returns the
concrete-thickness error, not the span error. -/
theorem validation_order_counterexample :
    ((10:ℚ) < min_span FormworkSystem.PERI_SKYDECK ∨
      resolved_max_span FormworkSystem.PERI_SKYDECK (some SkydeckSupportType.NO_SUPPORT) < 10) ∧
    skydeck_concrete_capacity SkydeckSupportType.NO_SUPPORT < 0.5 ∧
    design_formwork_system FormworkSystem.PERI_SKYDECK 10 5 1
        (some SkydeckSupportType.NO_SUPPORT) (some 0.5) =
      Except.error DesignError.ConcreteThicknessExceeded ∧
    is_span_error (design_formwork_system FormworkSystem.PERI_SKYDECK 10 5 1
        (some SkydeckSupportType.NO_SUPPORT) (some 0.5)) = false := by
  have hfail : thickness_check_fails FormworkSystem.PERI_SKYDECK
      (some SkydeckSupportType.NO_SUPPORT) (some 0.5) = true := by
    simp only [thickness_check_fails, skydeck_concrete_capacity, Bool.and_eq_true,
      decide_eq_true_eq]
    norm_num
  refine ⟨Or.inr ?_, ?_, ?_, ?_⟩
  · norm_num [resolved_max_span, skydeck_max_span]
  · norm_num [skydeck_concrete_capacity]
  · unfold design_formwork_system
    rw [hfail]
    rfl
  · unfold design_formwork_system
    rw [hfail]
    rfl

theorem design_error_no_admissible (sys : FormworkSystem) (span width mvl : ℚ)
    (sup : Option SkydeckSupportType) (t : Option ℚ)
    (h : thickness_check_fails sys sup t = false)
    (hs : ¬(span < min_span sys ∨ resolved_max_span sys sup < span))
    (hc : ¬(ultimate_capacity sys < mvl))
    (hr : ¬(mvl ≤ ultimate_capacity sys * 0.9)) :
    design_formwork_system sys span width mvl sup t =
      Except.error DesignError.NoAdmissibleSpacing := by
  unfold design_formwork_system
  simp [h, hs, hc, recommended_spacing_none (standard_spacings sys) mvl
    (ultimate_capacity sys) hr]

/-- C3 as amended: the validator short-circuits in the order
concrete-thickness check (which fires only for PERI Skydeck with a support
configuration and a nonzero supplied thickness), then span bounds, then
ultimate capacity, then spacing selection; when both the thickness and the
span checks would fail, the thickness error is the one returned. -/
theorem validation_order_amended (sys : FormworkSystem) (span width mvl : ℚ)
    (sup : Option SkydeckSupportType) (t : Option ℚ) :
    (thickness_check_fails sys sup t = true →
      design_formwork_system sys span width mvl sup t =
        Except.error DesignError.ConcreteThicknessExceeded) ∧
    (thickness_check_fails sys sup t = false →
      (span < min_span sys ∨ resolved_max_span sys sup < span) →
      design_formwork_system sys span width mvl sup t =
        Except.error DesignError.SpanOutOfRange) ∧
    (thickness_check_fails sys sup t = false →
      ¬(span < min_span sys ∨ resolved_max_span sys sup < span) →
      ultimate_capacity sys < mvl →
      design_formwork_system sys span width mvl sup t =
        Except.error DesignError.CapacityExceeded) ∧
    (thickness_check_fails sys sup t = false →
      ¬(span < min_span sys ∨ resolved_max_span sys sup < span) →
      ¬(ultimate_capacity sys < mvl) →
      ¬(mvl ≤ ultimate_capacity sys * 0.9) →
      design_formwork_system sys span width mvl sup t =
        Except.error DesignError.NoAdmissibleSpacing) := by
  refine ⟨?_, ?_, ?_, ?_⟩
  · intro h
    unfold design_formwork_system
    rw [h]
    rfl
  · intro h hs
    unfold design_formwork_system
    simp [h, hs]
  · intro h hs hc
    unfold design_formwork_system
    simp [h, hs, hc]
  · exact design_error_no_admissible sys span width mvl sup t

/-- Witness for the amended C3: Gridflex with a load of 11 kPa (below the
12 kPa capacity but above the 90 % ceiling) fails with the
no-admissible-spacing error. -/
theorem validation_order_amended_witness :
    design_formwork_system FormworkSystem.GRIDFLEX 2 5 11 none none =
      Except.error DesignError.NoAdmissibleSpacing :=
  (validation_order_amended FormworkSystem.GRIDFLEX 2 5 11 none none).2.2.2
    rfl (by norm_num [min_span, resolved_max_span])
    (by norm_num [ultimate_capacity]) (by norm_num [ultimate_capacity])

theorem sorted_desc_skydeck :
    sorted_desc (standard_spacings FormworkSystem.PERI_SKYDECK) = [1.5, 1.2, 0.9] := by
  norm_num [standard_spacings, sorted_desc, insert_desc]

theorem sorted_desc_gridflex :
    sorted_desc (standard_spacings FormworkSystem.GRIDFLEX) = [1.2, 0.9, 0.6] := by
  norm_num [standard_spacings, sorted_desc, insert_desc]

theorem sorted_desc_alphadeck :
    sorted_desc (standard_spacings FormworkSystem.ALPHADECK) = [1.8, 1.5, 1.2, 1.0] := by
  norm_num [standard_spacings, sorted_desc, insert_desc]

theorem recommended_spacing_spec (sys : FormworkSystem) (mvl : ℚ) (s : ℚ)
    (h : recommended_spacing (standard_spacings sys) mvl (ultimate_capacity sys) = some s) :
    s ∈ standard_spacings sys ∧ (∀ x ∈ standard_spacings sys, x ≤ s) ∧
    mvl ≤ ultimate_capacity sys * 0.9 ∧ 0 < s := by
  by_cases hle : mvl ≤ ultimate_capacity sys * 0.9
  · rw [recommended_spacing_some_head _ _ _ hle] at h
    cases sys with
    | PERI_SKYDECK =>
      rw [sorted_desc_skydeck] at h
      have hs : s = 1.5 := by
        simpa using h.symm
      subst hs
      refine ⟨?_, ?_, hle, ?_⟩
      · norm_num [standard_spacings]
      · intro x hx
        simp only [standard_spacings, List.mem_cons, List.not_mem_nil, or_false] at hx
        rcases hx with rfl | rfl | rfl <;> norm_num
      · norm_num
    | GRIDFLEX =>
      rw [sorted_desc_gridflex] at h
      have hs : s = 1.2 := by
        simpa using h.symm
      subst hs
      refine ⟨?_, ?_, hle, ?_⟩
      · norm_num [standard_spacings]
      · intro x hx
        simp only [standard_spacings, List.mem_cons, List.not_mem_nil, or_false] at hx
        rcases hx with rfl | rfl | rfl <;> norm_num
      · norm_num
    | ALPHADECK =>
      rw [sorted_desc_alphadeck] at h
      have hs : s = 1.8 := by
        simpa using h.symm
      subst hs
      refine ⟨?_, ?_, hle, ?_⟩
      · norm_num [standard_spacings]
      · intro x hx
        simp only [standard_spacings, List.mem_cons, List.not_mem_nil, or_false] at hx
        rcases hx with rfl | rfl | rfl | rfl <;> norm_num
      · norm_num
  · rw [recommended_spacing_none _ _ _ hle] at h
    exact absurd h (by simp)

/-- C2: a selected spacing is always the largest standard spacing and implies
the design load is within the 90 % utilization ceiling; when the ceiling is
violated no spacing is admissible and the validator fails with the
no-admissible-spacing error; and a successful validation never occurs with a
design load above the ceiling. -/
theorem spacing_selection_rule (sys : FormworkSystem) (span width mvl : ℚ)
    (sup : Option SkydeckSupportType) (t : Option ℚ) (r : DesignResult) :
    (∀ s : ℚ,
      recommended_spacing (standard_spacings sys) mvl (ultimate_capacity sys) = some s →
      s ∈ standard_spacings sys ∧ (∀ x ∈ standard_spacings sys, x ≤ s) ∧
      mvl ≤ ultimate_capacity sys * 0.9) ∧
    (¬(mvl ≤ ultimate_capacity sys * 0.9) →
      recommended_spacing (standard_spacings sys) mvl (ultimate_capacity sys) = none) ∧
    (thickness_check_fails sys sup t = false →
      ¬(span < min_span sys ∨ resolved_max_span sys sup < span) →
      ¬(ultimate_capacity sys < mvl) →
      ¬(mvl ≤ ultimate_capacity sys * 0.9) →
      design_formwork_system sys span width mvl sup t =
        Except.error DesignError.NoAdmissibleSpacing) ∧
    (design_formwork_system sys span width mvl sup t = Except.ok r →
      mvl ≤ ultimate_capacity sys * 0.9) := by
  refine ⟨?_, ?_, ?_, ?_⟩
  · intro s hs
    obtain ⟨h1, h2, h3, _⟩ := recommended_spacing_spec sys mvl s hs
    exact ⟨h1, h2, h3⟩
  · exact recommended_spacing_none _ _ _
  · exact design_error_no_admissible sys span width mvl sup t
  · intro hok
    by_contra hgt
    have hnone := recommended_spacing_none (standard_spacings sys) mvl
      (ultimate_capacity sys) hgt
    unfold design_formwork_system at hok
    rw [hnone] at hok
    split at hok
    · exact Except.noConfusion hok
    · split at hok
      · exact Except.noConfusion hok
      · split at hok
        · exact Except.noConfusion hok
        · exact Except.noConfusion hok

/-- The result of a successful Gridflex design at span 2 m, width 5 m,
design load 5 kPa. -/
def design_gridflex_result : DesignResult :=
  { span := 2, width := 5, joist_spacing := 1, num_joists := 6, self_weight := 1/5,
    max_deflection := 1/200, max_allowed_deflection := 1/125,
    support_type := none, max_concrete_thickness := none }

theorem design_gridflex_eval :
    design_formwork_system FormworkSystem.GRIDFLEX 2 5 5 none none =
      Except.ok design_gridflex_result := by
  unfold design_formwork_system design_gridflex_result
  norm_num [thickness_check_fails, min_span, resolved_max_span, ultimate_capacity,
    recommended_spacing, standard_spacings, sorted_desc, insert_desc, List.find?,
    decking_weight, joist_weight, deflection_denominator]
  rw [show (⌈(25/6 : ℚ)⌉ : ℤ) = 5 by
    rw [Int.ceil_eq_iff]
    constructor <;> norm_num]
  norm_num [min_def]

/-- The result of a successful Alphadeck design at span 2 m, width 5 m,
design load 10 kPa. -/
def design_alphadeck_result : DesignResult :=
  { span := 2, width := 5, joist_spacing := 5/3, num_joists := 4, self_weight := 63/250,
    max_deflection := 1/200, max_allowed_deflection := 1/150,
    support_type := none, max_concrete_thickness := none }

theorem design_alphadeck_eval :
    design_formwork_system FormworkSystem.ALPHADECK 2 5 10 none none =
      Except.ok design_alphadeck_result := by
  unfold design_formwork_system design_alphadeck_result
  norm_num [thickness_check_fails, min_span, resolved_max_span, ultimate_capacity,
    recommended_spacing, standard_spacings, sorted_desc, insert_desc, List.find?,
    decking_weight, joist_weight, deflection_denominator]
  rw [show (⌈(25/9 : ℚ)⌉ : ℤ) = 3 by
    rw [Int.ceil_eq_iff]
    constructor <;> norm_num]
  norm_num [min_def]

/-- Witness for C2: a successful Alphadeck validation at a 10 kPa load
implies the load is within 90 % of the 18 kPa ultimate capacity. -/
theorem spacing_selection_rule_witness :
    (10:ℚ) ≤ ultimate_capacity FormworkSystem.ALPHADECK * 0.9 :=
  (spacing_selection_rule FormworkSystem.ALPHADECK 2 5 10 none none
    design_alphadeck_result).2.2.2 design_alphadeck_eval

/-- C10: every successful validation with positive width selected the
largest entry of the system's standard spacing list, reports at least two
joists (`ceil(width/spacing) + 1`), and returns an actual spacing
`width/(num_joists − 1)` no larger than the selected standard spacing. -/
theorem successful_design_spacing_facts (sys : FormworkSystem) (span width mvl : ℚ)
    (sup : Option SkydeckSupportType) (t : Option ℚ) (r : DesignResult)
    (hw : 0 < width)
    (hok : design_formwork_system sys span width mvl sup t = Except.ok r) :
    ∃ s : ℚ,
      recommended_spacing (standard_spacings sys) mvl (ultimate_capacity sys) = some s ∧
      s ∈ standard_spacings sys ∧ (∀ x ∈ standard_spacings sys, x ≤ s) ∧
      r.num_joists = ⌈width / s⌉ + 1 ∧ 2 ≤ r.num_joists ∧
      r.joist_spacing = width / ((r.num_joists - 1 : ℤ) : ℚ) ∧
      r.joist_spacing ≤ s := by
  unfold design_formwork_system at hok
  split at hok
  · exact Except.noConfusion hok
  · split at hok
    · exact Except.noConfusion hok
    · split at hok
      · exact Except.noConfusion hok
      · split at hok
        · exact Except.noConfusion hok
        · next s heq =>
          split at hok
          · exact Except.noConfusion hok
          · next hz =>
            obtain ⟨hmem, hmax, hle, hpos⟩ := recommended_spacing_spec sys mvl s heq
            simp only [Except.ok.injEq] at hok
            subst hok
            have hcpos : 0 < ⌈width / s⌉ := Int.ceil_pos.mpr (div_pos hw hpos)
            refine ⟨s, heq, hmem, hmax, rfl, ?_, rfl, ?_⟩
            · dsimp only
              omega
            · dsimp only
              have h1 : (⌈width / s⌉ + 1 - 1 : ℤ) = ⌈width / s⌉ := by ring
              rw [h1]
              have hcQ : (0:ℚ) < ((⌈width / s⌉ : ℤ) : ℚ) := by
                exact_mod_cast hcpos
              rw [div_le_iff₀ hcQ]
              have h2 : width / s ≤ ((⌈width / s⌉ : ℤ) : ℚ) := Int.le_ceil (width / s)
              have h3 : width ≤ ((⌈width / s⌉ : ℤ) : ℚ) * s := (div_le_iff₀ hpos).mp h2
              linarith [h3, mul_comm s ((⌈width / s⌉ : ℤ) : ℚ)]

/-- Witness for C10: the successful Gridflex design at width 5 m uses the
largest standard spacing 1.2 m, reports 6 joists and an actual spacing of
1 m ≤ 1.2 m. -/
theorem successful_design_spacing_facts_witness :
    2 ≤ design_gridflex_result.num_joists ∧
    design_gridflex_result.joist_spacing ≤ 1.2 := by
  obtain ⟨s, hs, _, _, _, h2, _, hle⟩ :=
    successful_design_spacing_facts FormworkSystem.GRIDFLEX 2 5 5 none none
      design_gridflex_result (by norm_num) design_gridflex_eval
  have hs' : s = 1.2 := by
    rw [recommended_spacing_some_head _ _ _ (by norm_num [ultimate_capacity]),
      sorted_desc_gridflex] at hs
    simpa using hs.symm
  exact ⟨h2, hs' ▸ hle⟩

/-- Maximum vertical component of one stage's combination list. -/
def stage_max (per_stage : Stage → List (ℚ × ℚ)) (st : Stage) : ℚ :=
  pyMax ((per_stage st).map Prod.fst)

/-- Modelled from the spec: the governing value, the maximum vertical
component across the union of all stages' combination lists. -/
def governing_value (per_stage : Stage → List (ℚ × ℚ)) : ℚ :=
  max (stage_max per_stage Stage.BEFORE_PLACEMENT)
    (max (stage_max per_stage Stage.DURING_PLACEMENT)
      (stage_max per_stage Stage.AFTER_PLACEMENT))

/-- Modelled from the spec: `select_design_load(per_stage_combinations) ->
(value, governing_stage)`, the CriticalLoadSelector interface.  The revision
in `src` computes only the governing value inline in `main` (see
`max_vertical_load`); the stage back-reference and its tie-break rule are
not present there, so they are modelled here from the spec's words: the
governing value is the maximum vertical component across all stages'
combinations, and the governing stage is the earliest stage in enumeration
order attaining that maximum. -/
def select_design_load (per_stage : Stage → List (ℚ × ℚ)) : ℚ × Stage :=
  if stage_max per_stage Stage.BEFORE_PLACEMENT = governing_value per_stage then
    (governing_value per_stage, Stage.BEFORE_PLACEMENT)
  else if stage_max per_stage Stage.DURING_PLACEMENT = governing_value per_stage then
    (governing_value per_stage, Stage.DURING_PLACEMENT)
  else
    (governing_value per_stage, Stage.AFTER_PLACEMENT)

/-- C6: the selector returns the governing value together with the stage
attaining it; the value dominates every combination, the reported stage
attains the value, any tie is broken toward the earliest stage in
enumeration order, and the value component coincides with the governing
load `main` computes. -/
theorem select_design_load_spec :
    (∀ per_stage : Stage → List (ℚ × ℚ),
      (select_design_load per_stage).1 =
        stage_max per_stage (select_design_load per_stage).2 ∧
      (∀ st : Stage, ∀ p ∈ per_stage st, p.1 ≤ (select_design_load per_stage).1) ∧
      (∀ st : Stage, stage_max per_stage st = (select_design_load per_stage).1 →
        stage_index (select_design_load per_stage).2 ≤ stage_index st)) ∧
    (∀ inp : LoadInputs,
      (select_design_load (critical_combinations inp)).1 = max_vertical_load inp) := by
  have key : ∀ per_stage : Stage → List (ℚ × ℚ),
      (select_design_load per_stage).1 = governing_value per_stage := by
    intro f
    unfold select_design_load
    split_ifs <;> rfl
  constructor
  · intro f
    have hdom : ∀ st : Stage, stage_max f st ≤ governing_value f := by
      intro st
      cases st
      · exact le_max_left _ _
      · exact le_trans (le_max_left _ _) (le_max_right _ _)
      · exact le_trans (le_max_right _ _) (le_max_right _ _)
    have hval := key f
    refine ⟨?_, ?_, ?_⟩
    · unfold select_design_load
      split_ifs with h1 h2
      · exact h1.symm
      · exact h2.symm
      · dsimp only
        rcases max_choice (stage_max f Stage.BEFORE_PLACEMENT)
            (max (stage_max f Stage.DURING_PLACEMENT)
              (stage_max f Stage.AFTER_PLACEMENT)) with h | h
        · exact absurd h.symm h1
        · rcases max_choice (stage_max f Stage.DURING_PLACEMENT)
              (stage_max f Stage.AFTER_PLACEMENT) with h' | h'
          · exact absurd (by rw [governing_value, h, h']) h2
          · rw [governing_value, h, h']
    · intro st p hp
      rw [hval]
      exact le_trans (le_pyMax_of_mem _ _ (List.mem_map_of_mem Prod.fst hp)) (hdom st)
    · intro st hst
      rw [hval] at hst
      unfold select_design_load
      split_ifs with h1 h2
      · exact Nat.zero_le _
      · dsimp only
        cases st
        · exact absurd hst h1
        · exact le_refl _
        · norm_num [stage_index]
      · dsimp only
        cases st
        · exact absurd hst h1
        · exact absurd hst h2
        · exact le_refl _
  · intro inp
    rw [key (critical_combinations inp), max_vertical_load_def]
    simp only [stage_list, List.map_cons, List.map_nil, pyMax, List.foldl]
    rw [governing_value, stage_max, stage_max, stage_max]
    exact (max_assoc _ _ _).symm

/-- A per-stage combination table on which all three stages tie at a
vertical load of 5. -/
def tie_per_stage : Stage → List (ℚ × ℚ) :=
  fun _ => [(5, 0)]

/-- Witness for C6: on the all-tie table the selector reports a stage no
later than AFTER_PLACEMENT in enumeration order (the earliest tying stage),
and its value dominates the tying combination. -/
theorem select_design_load_spec_witness :
    stage_index (select_design_load tie_per_stage).2 ≤ stage_index Stage.AFTER_PLACEMENT ∧
    (5:ℚ) ≤ (select_design_load tie_per_stage).1 := by
  constructor
  · refine (select_design_load_spec.1 tie_per_stage).2.2 Stage.AFTER_PLACEMENT ?_
    rfl
  · refine (select_design_load_spec.1 tie_per_stage).2.1 Stage.BEFORE_PLACEMENT (5, 0) ?_
    simp [tie_per_stage]

end SlabFW
